import Mathlib

/-!
Verification of the Walmart scraping script (`src/main.py`).

The script is embedded shallowly:
* Python/JSON values are the inductive `Json` (dicts are association lists
  in insertion order, as Python preserves insertion order).
* A fetched document is an `Option Json`: `none` models a page with no
  `<script id="__NEXT_DATA__">` element, `some j` models a page whose embedded
  blob parsed to the JSON value `j`.
* Python exceptions (KeyError, IndexError, TypeError, AttributeError) are
  modelled with `Except String`; a `.error` value is a raised exception
  propagating to the caller.
* The external fetch collaborator (scrapfly) is a parameter
  `fetch : String → Option Json` mapping a request URL to the document's
  embedded blob.  Its concurrent batch is modelled as delivery in submission
  order; none of the verified claims depend on inter-page arrival order.
-/

/-- JSON / Python values as manipulated by the script. -/
inductive Json where
  | null : Json
  | bool : Bool → Json
  | num : Int → Json
  | str : String → Json
  | arr : List Json → Json
  | obj : List (String × Json) → Json

/-- Python `d[k]` on a value: KeyError if the key is absent from a dict,
TypeError if the value is not a dict. -/
def Json.getKey : Json → String → Except String Json
  | .obj kvs, k =>
    match kvs.lookup k with
    | some v => .ok v
    | none => .error ("KeyError: " ++ k)
  | _, k => .error ("TypeError: value is not subscriptable by key " ++ k)

/-- Python `l[i]` for a non-negative index: IndexError if out of range,
TypeError if the value is not a list. -/
def Json.getIdx : Json → Nat → Except String Json
  | .arr xs, i =>
    match xs.get? i with
    | some v => .ok v
    | none => .error "IndexError: list index out of range"
  | _, _ => .error "TypeError: value is not indexable"

/-- One step of a chained Python subscript expression. -/
inductive PathStep where
  | key : String → PathStep
  | idx : Nat → PathStep
deriving DecidableEq

/-- A chained subscript `data[s1][s2]...[sn]`, evaluated left to right;
the first failing subscript raises. -/
def Json.getPath : Json → List PathStep → Except String Json
  | j, [] => .ok j
  | j, .key k :: rest => (j.getKey k).bind (fun v => v.getPath rest)
  | j, .idx i :: rest => (j.getIdx i).bind (fun v => v.getPath rest)

/-- Whether `(j.getKey k)` succeeds (the Python `k in j` test for dicts). -/
def Json.hasKey (j : Json) (k : String) : Bool :=
  match j.getKey k with
  | .ok _ => true
  | .error _ => false

/-- Returns `true` exactly on `.error`. -/
def Except.isErrE {α : Type} : Except String α → Bool
  | .ok _ => false
  | .error _ => true

/-- The subscript chain of `main.py` line 30 reading the total count:
`["props"]["pageProps"]["initialData"]["searchResult"]["itemStacks"][0]["count"]`. -/
def search_count_path : List PathStep :=
  [.key "props", .key "pageProps", .key "initialData", .key "searchResult",
   .key "itemStacks", .idx 0, .key "count"]

/-- The subscript chain of `main.py` line 31 reading the item list:
`["props"]["pageProps"]["initialData"]["searchResult"]["itemStacks"][0]["items"]`. -/
def search_items_path : List PathStep :=
  [.key "props", .key "pageProps", .key "initialData", .key "searchResult",
   .key "itemStacks", .idx 0, .key "items"]

/-- Python iteration over a value, as used by the list comprehension on
line 33 and by `list.extend`: a list yields its elements, a dict yields its
keys, anything the script can produce besides these raises TypeError. -/
def Json.iterate : Json → Except String (List Json)
  | .arr xs => .ok xs
  | .obj kvs => .ok (kvs.map (fun kv => Json.str kv.1))
  | _ => .error "TypeError: value is not iterable"

/-- The Python comparison `t == "Product"`: true exactly when `t` is the
string `"Product"`; a value of any other type compares unequal, without
raising. -/
def is_product_tag : Json → Bool
  | .str s => s = "Product"
  | _ => false

/-- The list comprehension of `main.py` line 33:
`[r for r in results if r["__typename"] == "Product"]`.
Each element's `"__typename"` subscript may raise; a non-`"Product"`
discriminator (including a non-string) is filtered out without error. -/
def filter_products : List Json → Except String (List Json)
  | [] => .ok []
  | r :: rs => do
    let t ← r.getKey "__typename"
    let rest ← filter_products rs
    if is_product_tag t then .ok (r :: rest) else .ok rest

/-- Embedding of `parse_search` (`main.py` lines 23–37).  On a document with no
`__NEXT_DATA__` script it returns the pair `({}, 0)` (an empty dict and the
int 0).  Otherwise it reads the count and the item list from the first item
stack, filters items to the `"Product"`-typed ones, and returns them with
the reported count; any missing inner field raises. -/
def parse_search (doc : Option Json) : Except String (Json × Json) :=
  match doc with
  | none => .ok (.obj [], .num 0)
  | some data => do
    let total ← data.getPath search_count_path
    let results ← data.getPath search_items_path
    let items ← results.iterate
    let filtered ← filter_products items
    .ok (.arr filtered, total)

/-- The predicate the filter of `parse_search` keeps: the entry has a
`"__typename"` key whose value is the string `"Product"`. -/
def preview_is_product (r : Json) : Bool :=
  match r.getKey "__typename" with
  | .ok t => is_product_tag t
  | .error _ => false

/-- UTF-8 encoding of one code point (CPython encodes query strings to UTF-8
bytes before percent-encoding). -/
def utf8_bytes_char (c : Char) : List Nat :=
  let n := c.toNat
  if n < 128 then [n]
  else if n < 2048 then [192 + n / 64, 128 + n % 64]
  else if n < 65536 then [224 + n / 4096, 128 + (n / 64) % 64, 128 + n % 64]
  else [240 + n / 262144, 128 + (n / 4096) % 64, 128 + (n / 64) % 64, 128 + n % 64]

/-- UTF-8 encoding of a string as a byte (as `Nat`) sequence. -/
def utf8_bytes (s : String) : List Nat := s.data.flatMap utf8_bytes_char

/-- The bytes `urllib.parse.quote_plus` leaves unescaped: ASCII letters,
digits, and `_ . - ~`. -/
def always_safe_byte (n : Nat) : Bool :=
  (65 ≤ n && n ≤ 90) || (97 ≤ n && n ≤ 122) || (48 ≤ n && n ≤ 57) ||
    n = 95 || n = 46 || n = 45 || n = 126

/-- Uppercase hexadecimal digit for `n < 16`. -/
def hex_digit (n : Nat) : Char :=
  if n < 10 then Char.ofNat (48 + n) else Char.ofNat (55 + n)

/-- Percent-encoding of one byte under `quote_plus`: space becomes `+`,
safe bytes pass through, every other byte becomes `%XX` with uppercase hex. -/
def quote_byte (n : Nat) : List Char :=
  if n = 32 then ['+']
  else if always_safe_byte n then [Char.ofNat n]
  else ['%', hex_digit (n / 16), hex_digit (n % 16)]

/-- Modelled from `urllib.parse.quote_plus` (the encoder `urlencode` applies
to every key and value): UTF-8 encode, then percent-encode byte-wise with
space mapped to `+`. -/
def quote_plus (s : String) : String := ⟨(utf8_bytes s).flatMap quote_byte⟩

/-- Modelled from `urllib.parse.urlencode` on a dict: `k=v` pairs in
insertion order joined by `&`, keys and values passed through `quote_plus`. -/
def urlencode : List (String × String) → String
  | [] => ""
  | [kv] => quote_plus kv.1 ++ "=" ++ quote_plus kv.2
  | kv :: rest => quote_plus kv.1 ++ "=" ++ quote_plus kv.2 ++ "&" ++ urlencode rest

/-- Embedding of `create_search_url` (`main.py` lines 11–20) with both optional arguments
explicit; the page number is stringified by `urlencode` as Python `str` does. -/
def create_search_url (query : String) (page : Int) (sort : String) : String :=
  "https://www.walmart.com/search?" ++ urlencode
    [("q", query), ("sort", sort), ("page", toString page), ("affinityOverride", "default")]

/-- The call `create_search_url(query)` with both optional arguments omitted:
they default to page `1` and sort `"price_low"` (price ascending). -/
def create_search_url_default (query : String) : String :=
  create_search_url query 1 "price_low"

/-- Python `total_items / 40` demands a number; JSON numbers are modelled as
integers (`True`/`False` also divide in Python, as the ints 1/0). -/
def Json.asInt : Json → Except String Int
  | .num i => .ok i
  | .bool b => .ok (if b then 1 else 0)
  | _ => .error "TypeError: unsupported operand type for /"

/-- Computes `math.ceil(i / 40)` for an integer `i` (exact: the float detour of the
source cannot change the result below the clamp of 25 pages). -/
def ceil_div_40 (i : Int) : Int := (i + 39) / 40

/-- Lines 45–48 of `main.py`: `max_page = math.ceil(total_items / 40)`,
then clamped with `if max_page > 25: max_page = 25`. -/
def max_page_of (totalItems : Int) : Int :=
  if ceil_div_40 totalItems > 25 then 25 else ceil_div_40 totalItems

/-- Python `range(2, maxPage + 1)`: the pages 2, 3, …, maxPage (empty when
`maxPage ≤ 1`). -/
def pages_2_to (maxPage : Int) : List Int :=
  List.map (fun k : Nat => (k : Int) + 2) (List.range (maxPage - 1).toNat)

/-- The decision part of `discover_walmart` (lines 44–49): parse the first
page, obtain the total count, and compute the list of additional page
numbers to fetch. -/
def discover_plan (firstDoc : Option Json) : Except String (Json × List Int) := do
  let pr ← parse_search firstDoc
  let totalItems ← pr.2.asInt
  .ok (pr.1, pages_2_to (max_page_of totalItems))

/-- Python `previews.extend(x)`: only a list has `.extend` (the no-data dict
from `parse_search` would raise AttributeError here), and `x` is iterated. -/
def list_extend (l : Json) (x : Json) : Except String Json :=
  match l with
  | .arr xs =>
    match x.iterate with
    | .ok ys => .ok (.arr (xs ++ ys))
    | .error e => .error e
  | _ => .error "AttributeError: object has no attribute extend"

/-- Lines 50–53 of `main.py`: for each additional fetched page, parse it and
extend the accumulated previews with its preview component. -/
def extend_previews (previews : Json) (docs : List (Option Json)) : Except String Json :=
  match docs with
  | [] => .ok previews
  | d :: ds => do
    let pr ← parse_search d
    let previews2 ← list_extend previews pr.1
    extend_previews previews2 ds

/-- Embedding of `discover_walmart` (`main.py` lines 40–55): fetch and parse page 1,
compute the additional pages, fetch them all, and accumulate previews.
The concurrent batch is consumed in submission order in this model. -/
def discover_walmart (search : String) (fetch : String → Option Json) : Except String Json := do
  let plan ← discover_plan (fetch (create_search_url_default search))
  extend_previews plan.1 (plan.2.map (fun i => fetch (create_search_url search i "price_low")))

/-- The subscript chain of `main.py` line 63:
`["props"]["pageProps"]["initialData"]["data"]["product"]`. -/
def product_path : List PathStep :=
  [.key "props", .key "pageProps", .key "initialData", .key "data", .key "product"]

/-- The subscript chain of `main.py` line 79:
`["props"]["pageProps"]["initialData"]["data"]["reviews"]`. -/
def reviews_path : List PathStep :=
  [.key "props", .key "pageProps", .key "initialData", .key "data", .key "reviews"]

/-- Python `.items()` on the raw product object: a dict yields its pairs in
insertion order, anything else raises AttributeError. -/
def Json.asObj : Json → Except String (List (String × Json))
  | .obj kvs => .ok kvs
  | _ => .error "AttributeError: object has no attribute items"

/-- The fixed allow-list of product attribute keys (`main.py` lines 64–77). -/
def wanted_product_keys : List String :=
  ["availabilityStatus", "averageRating", "brand", "id", "imageInfo",
   "manufacturerName", "name", "orderLimit", "orderMinLimit", "priceInfo",
   "shortDescription", "type"]

/-- Embedding of `parse_product` (`main.py` lines 58–80).  On a document with no
`__NEXT_DATA__` script the Python function falls through and returns `None`
(modelled `.ok none`).  Otherwise it reads the raw product object, filters
its keys to the allow-list, reads the sibling reviews object unfiltered, and
returns the record; any missing inner field raises. -/
def parse_product (doc : Option Json) : Except String (Option Json) :=
  match doc with
  | none => .ok none
  | some data => do
    let productRaw ← data.getPath product_path
    let kvs ← productRaw.asObj
    let product := kvs.filter (fun kv => wanted_product_keys.contains kv.1)
    let reviewsRaw ← data.getPath reviews_path
    .ok (some (.obj [("product", .obj product), ("reviews", reviewsRaw)]))

/-- Embedding of `_scrape_products_by_url` (`main.py` lines 83–91): fetch every URL,
parse each document, and append the record when the parse returned one
(`if product != None`); a `None` result is skipped silently. -/
def scrape_products_by_url (urls : List String) (fetch : String → Option Json) :
    Except String (List Json) :=
  match urls with
  | [] => .ok []
  | u :: us => do
    let p ← parse_product (fetch u)
    let rest ← scrape_products_by_url us fetch
    match p with
    | some r => .ok (r :: rest)
    | none => .ok rest

/-- Characters allowed after the first character of a URL scheme. -/
def is_scheme_char (c : Char) : Bool := c.isAlphanum || c = '+' || c = '-' || c = '.'

/-- Whether a character list is a valid URL scheme (letter first, then
letters, digits, `+`, `-`, `.`), per `urllib.parse.urlsplit`. -/
def valid_scheme : List Char → Bool
  | [] => false
  | c :: rest => c.isAlpha && rest.all is_scheme_char

/-- Split a character list at its first `:`, if any. -/
def split_on_colon : List Char → Option (List Char × List Char)
  | [] => none
  | c :: rest =>
    if c = ':' then some ([], rest)
    else
      match split_on_colon rest with
      | some p => some (c :: p.1, p.2)
      | none => none

/-- Modelled from CPython `urlsplit`: strip the leading WHATWG C0-control
and space characters of a URL reference. -/
def lstrip_c0_space : List Char → List Char
  | [] => []
  | c :: cs => if c.toNat ≤ 32 then lstrip_c0_space cs else c :: cs

/-- Modelled from CPython `urlsplit`: remove every tab, carriage return and
line feed from a URL reference. -/
def remove_unsafe (l : List Char) : List Char :=
  l.filter (fun c => ¬ (c = '\t' ∨ c = '\r' ∨ c = '\n'))

/-- The full character clean-up CPython `urlsplit` applies before parsing. -/
def strip_url (l : List Char) : List Char := remove_unsafe (lstrip_c0_space l)

/-- ASCII lower-casing of a parsed scheme (`str.lower` on scheme characters,
which are all ASCII). -/
def lower_chars (l : List Char) : List Char := l.map Char.toLower

/-- Modelled from CPython `urlsplit` with default scheme `https` (the base
scheme): peel a valid scheme before the first `:` and lower-case it,
otherwise the reference is scheme-less and gets the base scheme. Returns
the scheme and the remainder. -/
def scheme_split (u : List Char) : List Char × List Char :=
  match split_on_colon u with
  | some p => if valid_scheme p.1 then (lower_chars p.1, p.2) else ("https".data, u)
  | none => ("https".data, u)

/-- Modelled from CPython `_splitnetloc`: the authority extends to the first
`/`, `?` or `#`; returns the authority and the remainder. -/
def split_netloc : List Char → List Char × List Char
  | [] => ([], [])
  | c :: cs =>
    if c = '/' ∨ c = '?' ∨ c = '#' then ([], c :: cs)
    else (c :: (split_netloc cs).1, (split_netloc cs).2)

/-- Authority of a reference: present exactly when it starts with `//`. -/
def netloc_split (rest : List Char) : List Char × List Char :=
  if rest.take 2 = ['/', '/'] then split_netloc (rest.drop 2) else ([], rest)

/-- Split at the first occurrence of a character, if any. -/
def split_first_opt (ch : Char) : List Char → Option (List Char × List Char)
  | [] => none
  | c :: cs =>
    if c = ch then some ([], cs)
    else
      match split_first_opt ch cs with
      | some p => some (c :: p.1, p.2)
      | none => none

/-- Fragment of a reference: everything after the first `#` (CPython keeps
an absent and an empty fragment apart only until `urlunsplit`, which drops
both, so they are identified here). -/
def fragment_split (l : List Char) : List Char × List Char :=
  match split_first_opt '#' l with
  | some p => p
  | none => (l, [])

/-- Query of a reference: everything after the first `?` of the
pre-fragment part (absent and empty identified as for the fragment). -/
def query_split (l : List Char) : List Char × List Char :=
  match split_first_opt '?' l with
  | some p => p
  | none => (l, [])

/-- Split at the last occurrence of a character, if any. -/
def split_last (ch : Char) : List Char → Option (List Char × List Char)
  | [] => none
  | c :: cs =>
    match split_last ch cs with
    | some p => some (c :: p.1, p.2)
    | none => if c = ch then some ([], cs) else none

/-- Modelled from CPython `_splitparams` (reached because `https` uses
params): path parameters start at the first `;` of the last path segment. -/
def split_params (p : List Char) : List Char × List Char :=
  match split_last '/' p with
  | some q =>
    match split_first_opt ';' q.2 with
    | some r => (q.1 ++ '/' :: r.1, r.2)
    | none => (p, [])
  | none =>
    match split_first_opt ';' p with
    | some r => (r.1, r.2)
    | none => (p, [])

/-- Python `str.split` on `/`: the list of path segments (the empty string
yields one empty segment). -/
def split_segments : List Char → List (List Char)
  | [] => [[]]
  | c :: cs =>
    if c = '/' then [] :: split_segments cs
    else
      match split_segments cs with
      | s :: rest => (c :: s) :: rest
      | [] => [[c]]

/-- Drops empty segments except the final one (the tail part of CPython
`urljoin`'s `segments[1:-1] = filter(None, segments[1:-1])`). -/
def keep_last_filter : List (List Char) → List (List Char)
  | [] => []
  | [x] => [x]
  | x :: xs => if x = [] then keep_last_filter xs else x :: keep_last_filter xs

/-- CPython `urljoin`'s in-place filter: empty interior segments are
dropped, the first and last segments are kept. -/
def filter_interior : List (List Char) → List (List Char)
  | [] => []
  | first :: rest => first :: keep_last_filter rest

/-- RFC 3986 dot-segment removal as CPython `urljoin` implements it: `..`
pops the accumulator (ignoring underflow), `.` is skipped, anything else is
appended. -/
def resolve_dots : List (List Char) → List (List Char) → List (List Char)
  | acc, [] => acc
  | acc, s :: rest =>
    if s = ['.', '.'] then resolve_dots acc.dropLast rest
    else if s = ['.'] then resolve_dots acc rest
    else resolve_dots (acc ++ [s]) rest

/-- Python `'/'.join` on segments. -/
def join_segments : List (List Char) → List Char
  | [] => []
  | [s] => s
  | s :: rest => s ++ '/' :: join_segments rest

/-- The path-resolution core of CPython `urljoin` against base path `/`:
absolute paths are split directly, relative paths are appended to the base
directory with empty interior segments dropped; dot segments are removed, a
trailing `.` or `..` restores a trailing slash, and an emptied path becomes
`/`. -/
def resolve_path (path0 : List Char) : List Char :=
  let segments :=
    if path0.take 1 = ['/'] then split_segments path0
    else filter_interior ([[], []] ++ split_segments path0)
  let resolved0 := resolve_dots [] segments
  let resolved :=
    if segments.getLast? = some ['.'] ∨ segments.getLast? = some ['.', '.'] then
      resolved0 ++ [[]]
    else resolved0
  let joined := join_segments resolved
  if joined = [] then ['/'] else joined

/-- The authority of the base `https://www.walmart.com/`. -/
def walmart_host : List Char := "www.walmart.com".data

/-- Modelled from CPython `urlunsplit` with scheme `https` (the only scheme
that reaches a rebuild), merging the path-parameter rejoin of `urlunparse`:
empty query and fragment are dropped, a non-`/`-initial path after an
authority gets a `/`. -/
def unsplit_walmart (netloc path params query fragment : List Char) : List Char :=
  let u1 := path ++ (if params = [] then [] else ';' :: params)
  let u2 :=
    if netloc ≠ [] ∨ (u1 ≠ [] ∧ u1.take 2 = ['/', '/']) then
      if u1 ≠ [] ∧ u1.take 1 ≠ ['/'] then '/' :: '/' :: netloc ++ '/' :: u1
      else '/' :: '/' :: netloc ++ u1
    else u1
  let u3 := "https:".data ++ u2
  let u4 := if query = [] then u3 else u3 ++ '?' :: query
  if fragment = [] then u4 else u4 ++ '#' :: fragment

/-- Modelled from CPython `urllib.parse.urljoin` specialised to the base
`https://www.walmart.com/`, as called on `main.py` line 98: clean the
reference, parse scheme / authority / fragment / query / params, return a
non-`https` reference verbatim, keep an `https` reference's own authority
when it has one, and otherwise resolve its path (with dot-segment removal)
against the base.  Checked against CPython 3.11 `urljoin` on a large input
battery; the `ValueError` paths (unbalanced IPv6 brackets, bracketed-host
validation, non-NFKC-clean authorities) are outside the model's domain and
excluded by the theorems' hypotheses. -/
def urljoin_walmart (url : String) : String :=
  if url = "" then "https://www.walmart.com/"
  else
    let u := strip_url url.data
    let sr := scheme_split u
    if sr.1 ≠ "https".data then url
    else
      let nr := netloc_split sr.2
      let fr := fragment_split nr.2
      let qr := query_split fr.1
      let pp := split_params qr.1
      if nr.1 ≠ [] then ⟨unsplit_walmart nr.1 pp.1 pp.2 qr.2 fr.2⟩
      else if pp.1 = [] ∧ pp.2 = [] then ⟨unsplit_walmart walmart_host ['/'] [] qr.2 fr.2⟩
      else ⟨unsplit_walmart walmart_host (resolve_path pp.1) pp.2 qr.2 fr.2⟩

/-- Python `str` demand of `urljoin` on the canonical URL value. -/
def Json.asStr : Json → Except String String
  | .str s => .ok s
  | _ => .error "TypeError: expected str"

/-- The list comprehension of `main.py` lines 97–99: each preview's
`canonicalUrl` resolved against `https://www.walmart.com/`. -/
def product_urls_of : List Json → Except String (List String)
  | [] => .ok []
  | p :: ps => do
    let cu ← p.getKey "canonicalUrl"
    let s ← cu.asStr
    let rest ← product_urls_of ps
    .ok (urljoin_walmart s :: rest)

/-- Embedding of `scrape_walmart` (`main.py` lines 94–100): discover previews, resolve
each preview's canonical URL to an absolute product URL, then scrape and
parse every product page. -/
def scrape_walmart (search : String) (fetch : String → Option Json) :
    Except String (List Json) := do
  let searchResults ← discover_walmart search fetch
  let previewList ← searchResults.iterate
  let urls ← product_urls_of previewList
  scrape_products_by_url urls fetch

/-- Test fixture: a search-page blob of the shape
`props.pageProps.initialData.searchResult.itemStacks` whose first stack has
the given count and items, followed by the given further stacks. -/
def mk_search_doc (count : Json) (items : List Json) (otherStacks : List Json) : Json :=
  .obj [("props", .obj [("pageProps", .obj [("initialData",
    .obj [("searchResult", .obj [("itemStacks",
      .arr (.obj [("count", count), ("items", .arr items)] :: otherStacks))])])])])]

/-- Test fixture: a product-page blob of the shape
`props.pageProps.initialData.data.{product, reviews}`. -/
def mk_product_doc (product : Json) (reviews : Json) : Json :=
  .obj [("props", .obj [("pageProps", .obj [("initialData",
    .obj [("data", .obj [("product", product), ("reviews", reviews)])])])])]

lemma ok_bind {α β : Type} (a : α) (f : α → Except String β) :
    (Except.ok a >>= f) = f a := rfl

lemma error_bind {α β : Type} (e : String) (f : α → Except String β) :
    ((Except.error e : Except String α) >>= f) = Except.error e := rfl

/-- C5: on a document with no `__NEXT_DATA__` script element, `parse_search`
returns the empty (dict) collection and total count 0, as an ordinary return
value — a recoverable no-data outcome, not a raised error. -/
theorem parse_search_no_blob_returns_empty_zero :
    parse_search none = Except.ok (Json.obj [], Json.num 0) := rfl

/-- C6: on a document with no `__NEXT_DATA__` script element, `parse_product`
produces no result at all (`none`, not an empty record), without raising; and
the caller `_scrape_products_by_url` treats such a page as skipped: its
results are exactly those of the remaining URLs. -/
theorem parse_product_no_blob_skipped :
    parse_product none = Except.ok none ∧
    ∀ (fetch : String → Option Json) (u : String) (urls : List String),
      fetch u = none →
      scrape_products_by_url (u :: urls) fetch = scrape_products_by_url urls fetch := by
  refine ⟨rfl, ?_⟩
  intro fetch u urls h
  show (parse_product (fetch u) >>= fun p =>
    scrape_products_by_url urls fetch >>= fun rest =>
      match p with
      | some r => Except.ok (r :: rest)
      | none => Except.ok rest) = scrape_products_by_url urls fetch
  rw [h]
  show (scrape_products_by_url urls fetch >>= fun rest => Except.ok rest) =
    scrape_products_by_url urls fetch
  cases scrape_products_by_url urls fetch <;> rfl

theorem parse_product_no_blob_skipped_witness :
    (fun _ : String => (none : Option Json)) "u" = none ∧
    scrape_products_by_url ["u"] (fun _ => none) =
      scrape_products_by_url [] (fun _ => none) :=
  ⟨rfl, parse_product_no_blob_skipped.2 (fun _ => none) "u" [] rfl⟩

/-- C9: when the first search page has no embedded JSON blob, the reported
total is 0, so `discover_walmart` plans zero additional page fetches and
returns the empty collection (the empty dict of the no-data branch) without
raising. -/
theorem discover_no_blob_no_extra_fetches (s : String) (fetch : String → Option Json)
    (h : fetch (create_search_url_default s) = none) :
    discover_plan none = Except.ok (Json.obj [], []) ∧
    discover_walmart s fetch = Except.ok (Json.obj []) := by
  refine ⟨rfl, ?_⟩
  show (discover_plan (fetch (create_search_url_default s)) >>= fun plan =>
    extend_previews plan.1 (plan.2.map (fun i => fetch (create_search_url s i "price_low")))) =
    Except.ok (Json.obj [])
  rw [h]
  rfl

theorem discover_no_blob_no_extra_fetches_witness :
    discover_plan none = Except.ok (Json.obj [], []) ∧
    discover_walmart "widgets" (fun _ => none) = Except.ok (Json.obj []) :=
  discover_no_blob_no_extra_fetches "widgets" (fun _ => none) rfl

/-- Characters that can appear in the output of `quote_plus`: ASCII letters
and digits (including the hex digits of escapes), `+`, `%`, and the safe
punctuation `_ . - ~`. -/
def allowed_url_char (c : Char) : Bool :=
  c.isAlphanum || c = '+' || c = '%' || c = '_' || c = '.' || c = '-' || c = '~'

set_option maxRecDepth 4096 in
lemma quote_byte_allowed : ∀ n < 256, ∀ c ∈ quote_byte n, allowed_url_char c = true := by
  decide

lemma utf8_bytes_char_lt (c : Char) : ∀ b ∈ utf8_bytes_char c, b < 256 := by
  have hv : c.toNat < 1114112 := by
    have h := c.valid
    have he : c.toNat = c.val.toNat := rfl
    rcases h with h | ⟨h1, h2⟩
    · have : c.val.toNat < 55296 := h
      omega
    · have : c.val.toNat < 1114112 := h2
      omega
  intro b hb
  unfold utf8_bytes_char at hb
  simp only at hb
  split at hb <;> [skip; split at hb] <;> [skip; skip; split at hb] <;>
    simp_all <;> omega

lemma utf8_bytes_lt (q : String) : ∀ b ∈ utf8_bytes q, b < 256 := by
  intro b hb
  unfold utf8_bytes at hb
  rcases List.mem_flatMap.mp hb with ⟨ch, _, hbc⟩
  exact utf8_bytes_char_lt ch b hbc

lemma quote_plus_chars (q : String) : ∀ c ∈ (quote_plus q).data, allowed_url_char c = true := by
  intro c hc
  have hd : (quote_plus q).data = (utf8_bytes q).flatMap quote_byte := rfl
  rw [hd] at hc
  rcases List.mem_flatMap.mp hc with ⟨b, hb, hcb⟩
  exact quote_byte_allowed b (utf8_bytes_lt q b hb) c hcb

/-- C8: for every query string `q`, `create_search_url` is total and returns
the absolute search-endpoint URL with `q` percent-encoded (every character of
the encoding drawn from the URL-safe alphabet) and the query parameters
`sort=price_low`, `page=1`, `affinityOverride=default`; omitting the optional
arguments means page 1 and the price-ascending sort. -/
theorem create_search_url_builds_search_endpoint (q : String) :
    create_search_url q 1 "price_low" =
      "https://www.walmart.com/search?q=" ++ quote_plus q ++
        "&sort=price_low&page=1&affinityOverride=default" ∧
    create_search_url_default q = create_search_url q 1 "price_low" ∧
    ∀ c ∈ (quote_plus q).data, allowed_url_char c = true := by
  refine ⟨?_, rfl, quote_plus_chars q⟩
  apply String.ext
  show ("https://www.walmart.com/search?" ++ ("q" ++ "=" ++ quote_plus q ++ "&" ++
    urlencode [("sort", "price_low"), ("page", "1"), ("affinityOverride", "default")])).data = _
  simp [String.data_append]
  rfl

theorem create_search_url_builds_search_endpoint_witness :
    create_search_url "a/b c" 1 "price_low" =
      "https://www.walmart.com/search?q=" ++ quote_plus "a/b c" ++
        "&sort=price_low&page=1&affinityOverride=default" ∧
    ∀ c ∈ (quote_plus "a/b c").data, allowed_url_char c = true :=
  ⟨(create_search_url_builds_search_endpoint "a/b c").1,
   (create_search_url_builds_search_endpoint "a/b c").2.2⟩

/-- C1: for a first page reporting total count `n`, `discover_walmart`
computes `maxPage = ceil(n / 40)` clamped to at most 25 and fetches exactly
the pages 2 through `maxPage` (none when `maxPage ≤ 1`); `n = 1050` gives
`maxPage = 25` and 24 additional fetches, `n ≤ 40` gives none, and the
number of search pages requested (page 1 plus the additional ones) never
exceeds 25. -/
theorem discover_page_budget (n : Nat) :
    discover_plan (some (mk_search_doc (Json.num n) [] [])) =
      Except.ok (Json.arr [], pages_2_to (max_page_of n)) ∧
    max_page_of n = min (ceil_div_40 n) 25 ∧
    (∀ i : Int, i ∈ pages_2_to (max_page_of n) ↔ 2 ≤ i ∧ i ≤ max_page_of n) ∧
    ((n : Int) = 1050 → max_page_of n = 25 ∧ (pages_2_to (max_page_of n)).length = 24) ∧
    ((n : Int) ≤ 40 → pages_2_to (max_page_of n) = []) ∧
    1 + (pages_2_to (max_page_of n)).length ≤ 25 ∧
    ∀ (s : String) (fetch : String → Option Json),
      fetch (create_search_url_default s) = some (mk_search_doc (Json.num n) [] []) →
      discover_walmart s fetch =
        extend_previews (Json.arr [])
          ((pages_2_to (max_page_of n)).map (fun i => fetch (create_search_url s i "price_low"))) := by
  refine ⟨rfl, ?_, ?_, ?_, ?_, ?_, ?_⟩
  · unfold max_page_of
    split <;> omega
  · intro i
    simp only [pages_2_to, List.mem_map, List.mem_range]
    constructor
    · rintro ⟨k, hk, rfl⟩
      constructor <;> omega
    · rintro ⟨h2, hm⟩
      exact ⟨(i - 2).toNat, by omega, by omega⟩
  · intro h
    have hn : n = 1050 := by omega
    subst hn
    exact ⟨by decide, by decide⟩
  · intro h
    have hm : max_page_of n ≤ 1 := by
      unfold max_page_of ceil_div_40
      split <;> omega
    have h0 : (max_page_of n - 1).toNat = 0 := by omega
    simp [pages_2_to, h0]
  · have hm : max_page_of n ≤ 25 := by
      unfold max_page_of
      split <;> omega
    simp only [pages_2_to, List.length_map, List.length_range]
    omega
  · intro s fetch h
    show (discover_plan (fetch (create_search_url_default s)) >>= fun plan =>
      extend_previews plan.1
        (plan.2.map (fun i => fetch (create_search_url s i "price_low")))) = _
    rw [h]
    rfl

theorem discover_page_budget_witness :
    max_page_of ((1050 : Nat) : Int) = 25 ∧
    (pages_2_to (max_page_of ((1050 : Nat) : Int))).length = 24 ∧
    pages_2_to (max_page_of ((30 : Nat) : Int)) = [] :=
  ⟨((discover_page_budget 1050).2.2.2.1 (by norm_num)).1,
   ((discover_page_budget 1050).2.2.2.1 (by norm_num)).2,
   (discover_page_budget 30).2.2.2.2.1 (by norm_num)⟩

lemma filter_products_eq (items : List Json)
    (h : ∀ r ∈ items, r.hasKey "__typename" = true) :
    filter_products items = Except.ok (items.filter preview_is_product) := by
  induction items with
  | nil => rfl
  | cons r rs ih =>
    have hr := h r (List.mem_cons_self r rs)
    have hrs : ∀ x ∈ rs, x.hasKey "__typename" = true :=
      fun x hx => h x (List.mem_cons_of_mem r hx)
    rcases hg : r.getKey "__typename" with e | t
    · unfold Json.hasKey at hr
      rw [hg] at hr
      exact absurd hr (by simp)
    · show (r.getKey "__typename" >>= fun t => filter_products rs >>= fun rest =>
        if is_product_tag t then Except.ok (r :: rest) else Except.ok rest) = _
      rw [hg, ok_bind, ih hrs, ok_bind]
      have hp : preview_is_product r = is_product_tag t := by
        unfold preview_is_product
        rw [hg]
      by_cases hb : is_product_tag t = true
      · rw [if_pos hb]
        simp [List.filter_cons, hp, hb]
      · rw [if_neg hb]
        simp [List.filter_cons, hp, Bool.of_not_eq_true hb]

/-- C2: on a search page whose blob is present and whose first item stack
mixes `"Product"`-typed entries with other discriminators, `parse_search`
returns exactly the `"Product"`-typed entries in their original order
(`List.filter` keeps order), paired with the first stack's reported count —
whatever that count is, independent of how many entries survive the filter
and of any further item stacks. -/
theorem parse_search_filters_product_entries (count : Json) (items otherStacks : List Json)
    (h : ∀ r ∈ items, r.hasKey "__typename" = true) :
    parse_search (some (mk_search_doc count items otherStacks)) =
      Except.ok (Json.arr (items.filter preview_is_product), count) := by
  show ((mk_search_doc count items otherStacks).getPath search_count_path >>= fun total =>
    (mk_search_doc count items otherStacks).getPath search_items_path >>= fun results =>
    results.iterate >>= fun its => filter_products its >>= fun filtered =>
    Except.ok (Json.arr filtered, total)) = _
  rw [show (mk_search_doc count items otherStacks).getPath search_count_path =
    Except.ok count from rfl, ok_bind]
  rw [show (mk_search_doc count items otherStacks).getPath search_items_path =
    Except.ok (Json.arr items) from rfl, ok_bind]
  rw [show (Json.arr items).iterate = Except.ok items from rfl, ok_bind]
  rw [filter_products_eq items h, ok_bind]

theorem parse_search_filters_product_entries_witness :
    parse_search (some (mk_search_doc (Json.num 99)
      [Json.obj [("__typename", Json.str "Product"), ("id", Json.num 1)],
       Json.obj [("__typename", Json.str "SponsoredAd")],
       Json.obj [("__typename", Json.str "Product"), ("id", Json.num 2)]]
      [Json.null])) =
    Except.ok (Json.arr
      ([Json.obj [("__typename", Json.str "Product"), ("id", Json.num 1)],
        Json.obj [("__typename", Json.str "SponsoredAd")],
        Json.obj [("__typename", Json.str "Product"), ("id", Json.num 2)]].filter
          preview_is_product), Json.num 99) :=
  parse_search_filters_product_entries (Json.num 99) _ [Json.null] (by decide)

/-- C4: on a product page whose blob is present, `parse_product` returns a
record whose product mapping is the raw product object filtered to the fixed
allow-list — so every key of the returned mapping is in the allow-list even
when the raw object carries extra keys — paired with the reviews object from
the sibling path, unfiltered. -/
theorem parse_product_allowlist (kvs : List (String × Json)) (reviews : Json) :
    parse_product (some (mk_product_doc (Json.obj kvs) reviews)) =
      Except.ok (some (Json.obj
        [("product", Json.obj (kvs.filter (fun kv => wanted_product_keys.contains kv.1))),
         ("reviews", reviews)])) ∧
    ∀ kv ∈ kvs.filter (fun kv => wanted_product_keys.contains kv.1),
      kv.1 ∈ wanted_product_keys := by
  constructor
  · rfl
  · intro kv hkv
    have hp := List.of_mem_filter hkv
    simpa using hp

theorem parse_product_allowlist_witness :
    parse_product (some (mk_product_doc
      (Json.obj [("name", Json.str "x"), ("secret", Json.num 7), ("brand", Json.str "b")])
      (Json.num 5))) =
      Except.ok (some (Json.obj
        [("product", Json.obj
          ([("name", Json.str "x"), ("secret", Json.num 7), ("brand", Json.str "b")].filter
            (fun kv => wanted_product_keys.contains kv.1))),
         ("reviews", Json.num 5)])) ∧
    ∀ kv ∈ [("name", Json.str "x"), ("secret", Json.num 7),
        ("brand", Json.str "b")].filter (fun kv => wanted_product_keys.contains kv.1),
      kv.1 ∈ wanted_product_keys :=
  ⟨(parse_product_allowlist _ (Json.num 5)).1, (parse_product_allowlist _ (Json.num 5)).2⟩

lemma parse_search_some_eq (data : Json) :
    parse_search (some data) =
      (data.getPath search_count_path >>= fun total =>
       data.getPath search_items_path >>= fun results =>
       results.iterate >>= fun items =>
       filter_products items >>= fun filtered =>
       Except.ok (Json.arr filtered, total)) := rfl

lemma parse_product_some_eq (data : Json) :
    parse_product (some data) =
      (data.getPath product_path >>= fun praw =>
       praw.asObj >>= fun kvs =>
       data.getPath reviews_path >>= fun rv =>
       Except.ok (some (Json.obj
         [("product", Json.obj (kvs.filter (fun kv => wanted_product_keys.contains kv.1))),
          ("reviews", rv)]))) := rfl

/-- C7: when the embedded blob is present but an expected inner field on the
fixed nested path is missing (the count or items chain through
`itemStacks[0]` for search pages, the product or reviews chain through
`initialData.data` for product pages), `parse_search` and `parse_product`
raise: the result is an error that propagates to the caller, not an empty or
skipped result. -/
theorem parse_shape_mismatch_raises :
    (∀ js : Json,
      ((js.getPath search_count_path).isErrE = true ∨
       (js.getPath search_items_path).isErrE = true) →
      (parse_search (some js)).isErrE = true) ∧
    (∀ jp : Json,
      ((jp.getPath product_path).isErrE = true ∨
       (jp.getPath reviews_path).isErrE = true) →
      (parse_product (some jp)).isErrE = true) := by
  constructor
  · intro js h
    rw [parse_search_some_eq]
    rcases hc : js.getPath search_count_path with e | total
    · rfl
    · rcases hi : js.getPath search_items_path with e2 | results
      · rfl
      · rcases h with h | h
        · rw [hc] at h
          exact absurd h (by simp [Except.isErrE])
        · rw [hi] at h
          exact absurd h (by simp [Except.isErrE])
  · intro jp h
    rw [parse_product_some_eq]
    rcases hp : jp.getPath product_path with e | praw
    · rfl
    · simp only [ok_bind]
      rcases ho : praw.asObj with e2 | kvs
      · rfl
      · simp only [ok_bind]
        rcases hr : jp.getPath reviews_path with e3 | rv
        · rfl
        · rcases h with h | h
          · rw [hp] at h
            exact absurd h (by simp [Except.isErrE])
          · rw [hr] at h
            exact absurd h (by simp [Except.isErrE])

theorem parse_shape_mismatch_raises_witness :
    (parse_search (some (Json.obj [("props", Json.obj [])]))).isErrE = true ∧
    (parse_product (some Json.null)).isErrE = true :=
  ⟨parse_shape_mismatch_raises.1 (Json.obj [("props", Json.obj [])]) (Or.inl rfl),
   parse_shape_mismatch_raises.2 Json.null (Or.inl rfl)⟩

/-- The record `_scrape_products_by_url` keeps for a URL: the parsed product
record when the parse returned one, nothing when the page was skipped. -/
def parsed_record (fetch : String → Option Json) (u : String) : Option Json :=
  match parse_product (fetch u) with
  | .ok (some r) => some r
  | _ => none

lemma parse_product_some_result (j : Json) (x : Option Json)
    (h : parse_product (some j) = Except.ok x) : x.isSome = true := by
  rw [parse_product_some_eq] at h
  cases hp : j.getPath product_path with
  | error e =>
    rw [hp] at h
    exact absurd h (by simp [error_bind])
  | ok praw =>
    simp only [hp, ok_bind] at h
    cases ho : praw.asObj with
    | error e2 =>
      rw [ho] at h
      exact absurd h (by simp [error_bind])
    | ok kvs =>
      simp only [ho, ok_bind] at h
      cases hr : j.getPath reviews_path with
      | error e3 =>
        rw [hr] at h
        exact absurd h (by simp [error_bind])
      | ok rv =>
        simp only [hr, ok_bind] at h
        cases h
        rfl

lemma scrape_products_spec (urls : List String) (fetch : String → Option Json)
    (hp : ∀ u ∈ urls, (parse_product (fetch u)).isErrE = false) :
    scrape_products_by_url urls fetch = Except.ok (urls.filterMap (parsed_record fetch)) := by
  induction urls with
  | nil => rfl
  | cons u us ih =>
    have hu := hp u (List.mem_cons_self u us)
    have hus : ∀ x ∈ us, (parse_product (fetch x)).isErrE = false :=
      fun x hx => hp x (List.mem_cons_of_mem u hx)
    show (parse_product (fetch u) >>= fun p =>
      scrape_products_by_url us fetch >>= fun rest =>
      match p with
      | some r => Except.ok (r :: rest)
      | none => Except.ok rest) = _
    rcases hpp : parse_product (fetch u) with e | p
    · rw [hpp] at hu
      exact absurd hu (by simp [Except.isErrE])
    · simp only [ok_bind, ih hus]
      rcases p with _ | r
      · simp [List.filterMap_cons, parsed_record, hpp]
      · simp [List.filterMap_cons, parsed_record, hpp]

lemma length_filterMap_eq_length_filter {α β : Type} (f : α → Option β) (l : List α) :
    (l.filterMap f).length = (l.filter (fun a => (f a).isSome)).length := by
  induction l with
  | nil => rfl
  | cons a as ih =>
    cases hf : f a <;> simp [List.filterMap_cons, List.filter_cons, hf, ih]

lemma parsed_record_isSome (fetch : String → Option Json) (u : String)
    (h : (parse_product (fetch u)).isErrE = false) :
    (parsed_record fetch u).isSome = (fetch u).isSome := by
  cases hf : fetch u with
  | none =>
    unfold parsed_record
    rw [hf]
    rfl
  | some j =>
    rw [hf] at h
    rcases hpp : parse_product (some j) with e | x
    · rw [hpp] at h
      exact absurd h (by simp [Except.isErrE])
    · have hx := parse_product_some_result j x hpp
      rcases x with _ | r
      · exact absurd hx (by simp)
      · unfold parsed_record
        rw [hf, hpp]
        rfl

/-- C3: over any canned documents, `scrape_walmart` resolves each discovered
preview's canonical URL against the site base, fetches those product URLs,
and — provided no page has a malformed shape — returns exactly one record per
URL whose page contained the embedded blob, excluding every URL whose page
had none: the record list is the filter-map of the per-URL parses, and its
length equals the number of product pages whose blob was present. -/
theorem scrape_walmart_end_to_end (search : String) (fetch : String → Option Json)
    (previews : List Json) (urls : List String)
    (hd : discover_walmart search fetch = Except.ok (Json.arr previews))
    (hu : product_urls_of previews = Except.ok urls)
    (hp : ∀ u ∈ urls, (parse_product (fetch u)).isErrE = false) :
    scrape_walmart search fetch = Except.ok (urls.filterMap (parsed_record fetch)) ∧
    (urls.filterMap (parsed_record fetch)).length =
      (urls.filter (fun u => (fetch u).isSome)).length := by
  constructor
  · show (discover_walmart search fetch >>= fun searchResults =>
      searchResults.iterate >>= fun previewList =>
      product_urls_of previewList >>= fun us =>
      scrape_products_by_url us fetch) = _
    rw [hd, ok_bind]
    rw [show (Json.arr previews).iterate = Except.ok previews from rfl, ok_bind]
    rw [hu, ok_bind]
    exact scrape_products_spec urls fetch hp
  · rw [length_filterMap_eq_length_filter]
    congr 1
    exact List.filter_congr (fun u hu2 => parsed_record_isSome fetch u (hp u hu2))

/-- Test fixture: a `"Product"`-typed preview with a site-relative canonical
URL. -/
def c3_preview1 : Json :=
  Json.obj [("__typename", Json.str "Product"), ("canonicalUrl", Json.str "/ip/1")]

/-- Test fixture: a second `"Product"`-typed preview. -/
def c3_preview2 : Json :=
  Json.obj [("__typename", Json.str "Product"), ("canonicalUrl", Json.str "/ip/2")]

/-- Test fixture: canned documents — page 1 lists two previews and reports
count 0 (so no additional pages), product page 1 has a blob, product page 2
has none. -/
def c3_fetch : String → Option Json := fun u =>
  if u = create_search_url_default "spider" then
    some (mk_search_doc (Json.num 0) [c3_preview1, c3_preview2] [])
  else if u = "https://www.walmart.com/ip/1" then
    some (mk_product_doc (Json.obj [("name", Json.str "A")]) (Json.num 5))
  else none

/-- Test fixture: the resolved product URLs of the two previews. -/
def c3_urls : List String := ["https://www.walmart.com/ip/1", "https://www.walmart.com/ip/2"]

theorem scrape_walmart_end_to_end_witness :
    scrape_walmart "spider" c3_fetch = Except.ok (c3_urls.filterMap (parsed_record c3_fetch)) ∧
    (c3_urls.filterMap (parsed_record c3_fetch)).length =
      (c3_urls.filter (fun u => (c3_fetch u).isSome)).length :=
  scrape_walmart_end_to_end "spider" c3_fetch [c3_preview1, c3_preview2] c3_urls
    (by rfl) (by rfl) (by decide)

